import Mathlib

/-!
Verification of the call-session orchestration engine of the wacalling
repository.  The definitions below are a shallow embedding of the event
handlers of `src/components/App.tsx`, of the host-bridge facade
`src/services/hubspot.service.ts` (its incoming-call dedup logic), of the
`useHubSpot` hook (`callCompleted` gating) and of the duration-timer
management (`startDurationTimer` in App.tsx).  Stateful handlers become a
pure transition function `stepA : Ctx → AppState → Event → AppState × List
Effect`; browser timers become an explicit interval world; `localStorage`
becomes an association list.  JavaScript truthiness on optional strings and
numbers is modelled explicitly (`jsTruthyStr`, `jsTruthyNat`).
-/

namespace Wacalling

/-- The screens of the app, from `ScreenType` usage in App.tsx. -/
inductive Screen where
  | LOADING
  | LOGIN
  | KEYPAD
  | PERMISSION_REQUEST
  | PERMISSION_PENDING
  | PERMISSION_DENIED
  | DIALING
  | INCOMING
  | CALLING
  | CALL_ENDED
  deriving DecidableEq

/-- Call direction, from the `callDirection` field of `LocalAppState`. -/
inductive Direction where
  | inbound
  | outbound
  deriving DecidableEq

/-- Modelled from the spec: the `endStatus` vocabulary of the CallSession
data model (§3) is `completed | canceled | failed | missed`; the concrete
`CallEndStatus` declaration lives in the `types` module which is not under
src/, and `missed` is also attested by the status cast in
`CallEndedScreen`.  App.tsx itself only ever writes the first three. -/
inductive CallEndStatus where
  | COMPLETED
  | CANCELED
  | FAILED
  | MISSED
  deriving DecidableEq

/-- The `iframeLocation` values reported by the HubSpot host, from the
comments and comparisons in App.tsx and hubspot.service.ts:
`window` (detached call popup), `widget` (embedded), `remote`
(cross-tab mode); `none` models the `null` dev/standalone case. -/
inductive IframeLocation where
  | window
  | widget
  | remote
  deriving DecidableEq

/-- Payload of a backend inbound-call push, with the fields App.tsx reads
from `IncomingCallData` (the `types` module is not under src/; the shape is
reconstructed from its uses in the `onIncomingCall` handler). -/
structure IncomingCallData where
  callSid : String
  fromNumber : String
  callStartTime : Nat
  contactId : Option String
  contactName : Option String
  engagementId : Option Nat
  deriving DecidableEq

/-- `LocalAppState` of App.tsx. -/
structure AppState where
  currentScreen : Screen
  phoneNumber : Option String
  callSid : Option String
  engagementId : Option Nat
  callDirection : Option Direction
  callStartTime : Option Nat
  callEndStatus : Option CallEndStatus
  contactId : Option String
  contactName : Option String
  isCallActive : Bool
  isCallConnected : Bool
  error : Option String
  hasSeenGetStarted : Bool
  callDuration : Nat
  deriving DecidableEq

/-- Ambient context read by the handlers: the tab role reported by the
host (`hubspot.iframeLocation`) and the engagement id held by the
`useHubSpot` hook (set by `onReady` / `onEngagementCreated`), which gates
the hook's `callCompleted`. -/
structure Ctx where
  iframeLocation : Option IframeLocation
  hubspotEngagementId : Option Nat
  deriving DecidableEq

/-- JavaScript truthiness of an optional string (`undefined` and `""` are
falsy). -/
def jsTruthyStr : Option String → Bool
  | none => false
  | some s => s != ""

/-- JavaScript truthiness of an optional number (`undefined` and `0` are
falsy). -/
def jsTruthyNat : Option Nat → Bool
  | none => false
  | some n => n != 0

/-- JavaScript `a || b` on optional strings, as in
`twilioCallSid || prev.callSid`. -/
def jsOrStr (a b : Option String) : Option String :=
  if jsTruthyStr a then a else b

/-- JavaScript `a || b` with a string default, as in
`event.error?.message || 'Call failed'`. -/
def jsOrStrD (a : Option String) (b : String) : String :=
  if jsTruthyStr a then a.getD "" else b

/-- Side effects issued by the handlers (host-bridge SDK calls, timer
operations, transport-layer actions).  `sdkCallEndedDelayed` is the
`setTimeout(100ms)`-deferred `hubspot.callEnded` of the `ended`/`error`
cases; `sdkCallEnded` is the direct call of the reject handler. -/
inductive Effect where
  | notifyIncoming (d : IncomingCallData)
  | showCallNotice
  | closeCallNotice
  | timerStart
  | timerStop
  | timerReset
  | startDuration (callSid : Option String)
  | stopDuration
  | sdkCallAnswered (callSid : String)
  | sdkCallEnded (callSid : String) (engagementId : Nat) (status : CallEndStatus)
  | sdkCallEndedDelayed (callSid : String) (engagementId : Nat) (status : CallEndStatus)
  | sdkCallCompleted (engagementId : Nat)
  | sdkOutgoingCall (callId : String)
  | webrtcAccept
  | webrtcReject
  | webrtcEndCall
  | apiEndCallRejected (callSid : String)
  deriving DecidableEq

/-- Events fed to the orchestrator: backend push events (`ws…`), transport
events (`tr…`, from the `webrtcService.onCallStatus` callback), and user /
async-outcome events for the remaining handlers of App.tsx.  `dialStart`
is the synchronous prefix of `initiateCall`; `dialSucceeded` / `dialFailed`
are its awaited outcomes (`callId` is the locally generated id captured by
the closure).  `rejectIncoming`'s flag tells whether `apiService.endCall`
resolved; `endCallClick`'s flag tells whether `webrtcService.endCall`
threw. -/
inductive Event where
  | wsIncomingCall (d : IncomingCallData)
  | wsCallAnswered (callSid : Option String)
  | trConnecting
  | trRinging (twilioCallSid : Option String)
  | trConnected (duration : Option Nat)
  | trEnded
  | trError (msg : Option String)
  | acceptIncoming
  | rejectIncoming (apiOk : Bool)
  | endCallClick (ok : Bool)
  | dialStart (phone contactId callId : String) (now : Nat)
  | dialSucceeded (twilioSid : Option String) (callId : String)
  | dialFailed (msg : Option String)
  | saveNotes (notes : String)
  | skipNotes
  | login
  | backToKeypad
  | clickToCall (number : String)
  deriving DecidableEq

/-- The state reset performed identically by `handleSaveCallNotes` and
`handleSkipNotes` (note: `engagementId` and `callDuration` are not in the
reset list in the source, and neither is `isCallConnected`). -/
def resetSession (s : AppState) : AppState :=
  { s with currentScreen := .KEYPAD, phoneNumber := none, callSid := none,
           callDirection := none, callStartTime := none, callEndStatus := none,
           contactId := none, contactName := none, isCallActive := false,
           error := none }

/-- Effects of the `useHubSpot` hook's `callCompleted`: it drops the
notification with a warning when the hook holds no engagement id
(`if (!state.engagementId) { console.warn…; return; }`). -/
def hookCallCompleted (ctx : Ctx) : List Effect :=
  match ctx.hubspotEngagementId with
  | some eng => [Effect.sdkCallCompleted eng]
  | none => []

/-- One orchestrator step: the state update and effect list each App.tsx
handler performs for the given event, translated clause by clause from the
source. -/
def stepA (ctx : Ctx) (s : AppState) (e : Event) : AppState × List Effect :=
  match e with
  | .wsIncomingCall d =>
      if ctx.iframeLocation = some .widget ∨ ctx.iframeLocation = some .remote then
        (s, [.notifyIncoming d])
      else
        ({ s with currentScreen := .INCOMING, phoneNumber := some d.fromNumber,
                  callSid := some d.callSid, callDirection := some .inbound,
                  callStartTime := some d.callStartTime, contactId := d.contactId,
                  contactName := d.contactName, engagementId := d.engagementId,
                  isCallConnected := false, callDuration := 0 },
         [.notifyIncoming d, .showCallNotice])
  | .wsCallAnswered sid =>
      if sid = s.callSid then
        ({ s with isCallConnected := true, callDuration := 0 },
         [.timerStart] ++
           (if jsTruthyStr s.callSid then [.sdkCallAnswered (s.callSid.getD "")] else []) ++
           [.startDuration s.callSid])
      else (s, [])
  | .trConnecting => (s, [])
  | .trRinging tw =>
      if s.callDirection = some .inbound then
        ({ s with callSid := jsOrStr tw s.callSid }, [])
      else
        ({ s with currentScreen := .CALLING, isCallConnected := false,
                  callSid := jsOrStr tw s.callSid }, [])
  | .trConnected dur =>
      if s.callDirection = some .inbound then
        ({ s with isCallConnected := true, callDuration := 0 },
         [.timerStart] ++
           (if jsTruthyStr s.callSid then
              [.startDuration s.callSid, .sdkCallAnswered (s.callSid.getD "")]
            else []))
      else
        ({ s with callDuration := dur.getD 0 }, [])
  | .trEnded =>
      ({ s with currentScreen := .CALL_ENDED, callEndStatus := some .COMPLETED,
                isCallActive := false },
       [.timerStop, .stopDuration] ++
         (if jsTruthyStr s.callSid && jsTruthyNat s.engagementId then
            [.sdkCallEndedDelayed (s.callSid.getD "") (s.engagementId.getD 0) .COMPLETED]
          else []))
  | .trError msg =>
      ({ s with currentScreen := .CALL_ENDED, callEndStatus := some .FAILED,
                error := some (jsOrStrD msg "Call failed"), isCallActive := false },
       [.timerStop, .stopDuration] ++
         (if jsTruthyStr s.callSid && jsTruthyNat s.engagementId then
            [.sdkCallEndedDelayed (s.callSid.getD "") (s.engagementId.getD 0) .FAILED]
          else []))
  | .acceptIncoming =>
      if jsTruthyStr s.callSid && jsTruthyNat s.engagementId then
        ({ s with currentScreen := .CALLING, isCallActive := true,
                  isCallConnected := false },
         [.closeCallNotice, .webrtcAccept])
      else (s, [])
  | .rejectIncoming apiOk =>
      if jsTruthyStr s.callSid && jsTruthyNat s.engagementId then
        if apiOk then
          ({ s with currentScreen := .CALL_ENDED, callEndStatus := some .CANCELED,
                    isCallActive := false },
           [.closeCallNotice, .webrtcReject, .apiEndCallRejected (s.callSid.getD ""),
            .sdkCallEnded (s.callSid.getD "") (s.engagementId.getD 0) .CANCELED])
        else
          (s, [.closeCallNotice, .webrtcReject, .apiEndCallRejected (s.callSid.getD "")])
      else (s, [])
  | .endCallClick ok =>
      if ok then (s, [.webrtcEndCall])
      else
        ({ s with currentScreen := .CALL_ENDED, callEndStatus := some .FAILED,
                  isCallActive := false },
         [.webrtcEndCall, .timerStop])
  | .dialStart phone cid callId now =>
      ({ s with currentScreen := .DIALING, callSid := some callId,
                callDirection := some .outbound, callStartTime := some now,
                contactId := some cid, phoneNumber := some phone,
                isCallActive := true, isCallConnected := false, callDuration := 0 },
       [.sdkOutgoingCall callId])
  | .dialSucceeded tw callId =>
      ({ s with callSid := some (jsOrStrD tw callId) }, [])
  | .dialFailed msg =>
      ({ s with currentScreen := .CALL_ENDED, callEndStatus := some .FAILED,
                error := some (jsOrStrD msg "Failed to initiate call"),
                isCallActive := false },
       (if jsTruthyStr s.callSid && jsTruthyNat s.engagementId then
          [.sdkCallEndedDelayed (s.callSid.getD "") (s.engagementId.getD 0) .FAILED]
        else []) ++ [.timerStop])
  | .saveNotes _ =>
      (resetSession s, hookCallCompleted ctx ++ [.timerReset])
  | .skipNotes =>
      (resetSession s, hookCallCompleted ctx ++ [.timerReset])
  | .login => ({ s with currentScreen := .KEYPAD }, [])
  | .backToKeypad =>
      ({ s with currentScreen := .KEYPAD, phoneNumber := none, error := none }, [])
  | .clickToCall num =>
      ({ s with currentScreen := .KEYPAD, phoneNumber := some num, error := none }, [])

/-- The initial `LocalAppState` of App.tsx (its `useState` initializer). -/
def initialAppState : AppState :=
  { currentScreen := .LOADING, phoneNumber := none, callSid := none,
    engagementId := none, callDirection := none, callStartTime := none,
    callEndStatus := none, contactId := none, contactName := none,
    isCallActive := false, isCallConnected := false, error := none,
    hasSeenGetStarted := false, callDuration := 0 }

/-- Run a sequence of events from a state, keeping only the state. -/
def runFrom (ctx : Ctx) (s : AppState) (evs : List Event) : AppState :=
  evs.foldl (fun st e => (stepA ctx st e).1) s

/-- Transport events (the `webrtcService.onCallStatus` alphabet). -/
def isTransport : Event → Bool
  | .trConnecting => true
  | .trRinging _ => true
  | .trConnected _ => true
  | .trEnded => true
  | .trError _ => true
  | _ => false

/-- The connection phase the spec (§4.1, §8) reads off the screen state:
`ended` when the ended screen is shown, `connected` when the connected
flag is up, `ringing` on the active-call screen before connection,
`dialing` / `announced` on the dialing and incoming screens, `idle`
otherwise. -/
inductive Phase where
  | idle
  | dialing
  | announced
  | ringing
  | connected
  | ended
  deriving DecidableEq

/-- Abstraction from the concrete screen state to the connection phase. -/
def phase (s : AppState) : Phase :=
  if s.currentScreen = .CALL_ENDED then .ended
  else if s.isCallConnected then .connected
  else if s.currentScreen = .CALLING then .ringing
  else if s.currentScreen = .DIALING then .dialing
  else if s.currentScreen = .INCOMING then .announced
  else .idle

/-- Forward order of the phases (`dialing` and `announced` share a rank,
as in the spec's `idle→dialing/announced→ringing→connected→ended`). -/
def rank : Phase → Nat
  | .idle => 0
  | .dialing => 1
  | .announced => 1
  | .ringing => 2
  | .connected => 3
  | .ended => 4

/-- The `localStorage` key used for the dedup claim
(`hubspot_incoming_call_${data.callSid}`). -/
def claimKey (callSid : String) : String :=
  "hubspot_incoming_call_" ++ callSid

/-- `localStorage.getItem` over an association-list store (most recent
write first). -/
def getItem (store : List (String × Int)) (k : String) : Option Int :=
  (store.find? fun p => p.1 == k).map (fun p => p.2)

/-- `localStorage.setItem`: a new binding shadows any older one. -/
def setItem (store : List (String × Int)) (k : String) (v : Int) :
    List (String × Int) :=
  (k, v) :: store

/-- The service-level `notifyIncomingCall` of hubspot.service.ts, reduced
to its control flow: bail out when the SDK is not initialized or when the
tab is in `remote` mode; otherwise read the claim for the call id and
suppress when it is younger than 10 000 ms; otherwise write a fresh claim
and schedule the `sdk.incomingCall` announcement (the returned flag). -/
def notifyIncomingCallSvc (sdkInitialized : Bool)
    (iframeLocation : Option IframeLocation) (store : List (String × Int))
    (callSid : String) (now : Int) : List (String × Int) × Bool :=
  if sdkInitialized = false then (store, false)
  else if iframeLocation = some .remote then (store, false)
  else
    match getItem store (claimKey callSid) with
    | some ts =>
        if now - ts < 10000 then (store, false)
        else (setItem store (claimKey callSid) now, true)
    | none => (setItem store (claimKey callSid) now, true)

/-! ### Duration-timer world (App.tsx `startDurationTimer`) -/

/-- Browser-interval world: the set of live interval ids, a fresh-id
counter, the `durationIntervalRef` and the `callAnsweredTimeRef` of
App.tsx. -/
structure TimerWorld where
  live : List Nat
  nextId : Nat
  currentRef : Option Nat
  answeredAt : Nat
  deriving DecidableEq

/-- `clearInterval`. -/
def clearIntervalW (w : TimerWorld) (i : Nat) : TimerWorld :=
  { w with live := w.live.erase i }

/-- `setInterval`: registers a fresh tick source and returns its id. -/
def setIntervalW (w : TimerWorld) : TimerWorld × Nat :=
  ({ w with live := w.live ++ [w.nextId], nextId := w.nextId + 1 }, w.nextId)

/-- `startDurationTimer` of App.tsx: record the answer instant, clear any
interval held by `durationIntervalRef`, then install a new interval and
remember it in the ref. -/
def startDurationTimerW (w : TimerWorld) (now : Nat) : TimerWorld :=
  let w1 := { w with answeredAt := now }
  let w2 := match w1.currentRef with
            | some i => clearIntervalW w1 i
            | none => w1
  let p := setIntervalW w2
  { p.1 with currentRef := some p.2 }

/-- Well-formedness of the timer world: the live tick sources are exactly
the one held by the ref (if any), and ids below the fresh counter. -/
def TimerWF (w : TimerWorld) : Prop :=
  w.live = (match w.currentRef with | some i => [i] | none => []) ∧
  ∀ i ∈ w.live, i < w.nextId

/-! ### Concrete example states used by witnesses and counterexamples -/

/-- A popup-window tab context with a host engagement id. -/
def exCtx : Ctx := { iframeLocation := some .window, hubspotEngagementId := some 42 }

/-- An embedded-widget tab context. -/
def ctxWidget : Ctx := { iframeLocation := some .widget, hubspotEngagementId := some 42 }

/-- A standalone/dev tab: the host never assigned a role. -/
def ctxDev : Ctx := { iframeLocation := none, hubspotEngagementId := some 1 }

/-- A concrete inbound-call push payload. -/
def d0 : IncomingCallData :=
  { callSid := "CA9", fromNumber := "+15550001111", callStartTime := 0,
    contactId := none, contactName := none, engagementId := some 7 }

/-- An announced inbound session. -/
def sInEx : AppState :=
  { initialAppState with currentScreen := .INCOMING, callDirection := some .inbound,
                         callSid := some "CA1", engagementId := some 3 }

/-- An outbound session on the active-call screen, not yet connected. -/
def sOutEx : AppState :=
  { initialAppState with currentScreen := .CALLING, callDirection := some .outbound,
                         callSid := some "CA2", isCallActive := true }

/-- A timer world holding one live interval. -/
def w0ex : TimerWorld := { live := [7], nextId := 8, currentRef := some 7, answeredAt := 100 }

/-! ### Claim theorems -/

/-- Claim C2: on a transport `ringing` event, an inbound session keeps its
screen (only the transport-assigned call id may be updated), while an
outbound session switches to the active-call screen with the connected
flag cleared. -/
theorem ringing_direction_dispatch (ctx : Ctx) (s : AppState) (tw : Option String) :
    (s.callDirection = some .inbound →
      (stepA ctx s (.trRinging tw)).1 = { s with callSid := jsOrStr tw s.callSid } ∧
      (stepA ctx s (.trRinging tw)).1.currentScreen = s.currentScreen) ∧
    (s.callDirection = some .outbound →
      (stepA ctx s (.trRinging tw)).1.currentScreen = .CALLING ∧
      (stepA ctx s (.trRinging tw)).1.isCallConnected = false) := by
  constructor
  · intro h
    simp [stepA, h]
  · intro h
    simp [stepA, h]

/-- Witness for C2 at concrete inbound and outbound sessions. -/
theorem ringing_direction_dispatch_witness :
    (stepA exCtx sInEx (.trRinging (some "CA3"))).1.currentScreen = sInEx.currentScreen ∧
    (stepA exCtx sOutEx (.trRinging (some "CA3"))).1.currentScreen = .CALLING := by
  exact ⟨((ringing_direction_dispatch exCtx sInEx (some "CA3")).1 rfl).2,
         ((ringing_direction_dispatch exCtx sOutEx (some "CA3")).2 rfl).1⟩

/-- Claim C9: the incoming-call accept and reject handlers are complete
no-ops (no state change, no effects) when the session lacks a `callSid` or
an `engagementId`. -/
theorem accept_reject_guard_noop (ctx : Ctx) (s : AppState) (ok : Bool)
    (h : s.callSid = none ∨ s.engagementId = none) :
    stepA ctx s .acceptIncoming = (s, []) ∧
    stepA ctx s (.rejectIncoming ok) = (s, []) := by
  have hg : (jsTruthyStr s.callSid && jsTruthyNat s.engagementId) = false := by
    rcases h with h | h <;> simp [jsTruthyStr, jsTruthyNat, h]
  constructor <;> simp [stepA, hg]

/-- Witness for C9 at the initial state (no call sid, no engagement id). -/
theorem accept_reject_guard_noop_witness :
    stepA exCtx initialAppState .acceptIncoming = (initialAppState, []) ∧
    stepA exCtx initialAppState (.rejectIncoming true) = (initialAppState, []) :=
  accept_reject_guard_noop exCtx initialAppState true (Or.inl rfl)

/-- Claim C5: a transport `ended` event ends the session as COMPLETED and
a transport `error` event as FAILED; both stop the duration timers; the
delayed host call-end notification is emitted only when an engagement id
is present on the session (none present → none sent); and in every case
the screen transitions to the ended presentation. -/
theorem end_error_status_and_notify (ctx : Ctx) (s : AppState) (msg : Option String) :
    (stepA ctx s .trEnded).1.callEndStatus = some .COMPLETED ∧
    (stepA ctx s (.trError msg)).1.callEndStatus = some .FAILED ∧
    (stepA ctx s .trEnded).1.currentScreen = .CALL_ENDED ∧
    (stepA ctx s (.trError msg)).1.currentScreen = .CALL_ENDED ∧
    (Effect.timerStop ∈ (stepA ctx s .trEnded).2 ∧
     Effect.stopDuration ∈ (stepA ctx s .trEnded).2) ∧
    (Effect.timerStop ∈ (stepA ctx s (.trError msg)).2 ∧
     Effect.stopDuration ∈ (stepA ctx s (.trError msg)).2) ∧
    (s.engagementId = none →
      ∀ cid eng st, Effect.sdkCallEndedDelayed cid eng st ∉ (stepA ctx s .trEnded).2 ∧
        Effect.sdkCallEndedDelayed cid eng st ∉ (stepA ctx s (.trError msg)).2) ∧
    (∀ cid eng st,
      Effect.sdkCallEndedDelayed cid eng st ∈ (stepA ctx s .trEnded).2 ∨
      Effect.sdkCallEndedDelayed cid eng st ∈ (stepA ctx s (.trError msg)).2 →
      s.engagementId ≠ none) := by
  refine ⟨by simp [stepA], by simp [stepA], by simp [stepA], by simp [stepA], ?_, ?_, ?_, ?_⟩
  · by_cases hc : (jsTruthyStr s.callSid && jsTruthyNat s.engagementId) = true
    · simp [stepA, hc]
    · simp [stepA, hc]
  · by_cases hc : (jsTruthyStr s.callSid && jsTruthyNat s.engagementId) = true
    · simp [stepA, hc]
    · simp [stepA, hc]
  · intro h cid eng st
    have hg : (jsTruthyStr s.callSid && jsTruthyNat s.engagementId) = false := by
      simp [jsTruthyNat, h]
    constructor <;> simp [stepA, hg]
  · intro cid eng st hmem hnone
    have hg : (jsTruthyStr s.callSid && jsTruthyNat s.engagementId) = false := by
      simp [jsTruthyNat, hnone]
    rcases hmem with hmem | hmem <;> simp [stepA, hg] at hmem

/-- Witness for C5 at a session with no engagement id: screen and status
are set, and no call-end notification is emitted. -/
theorem end_error_status_and_notify_witness :
    (stepA exCtx sOutEx .trEnded).1.callEndStatus = some .COMPLETED ∧
    Effect.sdkCallEndedDelayed "CA2" 0 .COMPLETED ∉ (stepA exCtx sOutEx .trEnded).2 := by
  refine ⟨(end_error_status_and_notify exCtx sOutEx none).1, ?_⟩
  exact ((end_error_status_and_notify exCtx sOutEx none).2.2.2.2.2.2.1 rfl "CA2" 0 .COMPLETED).1

/-- Claim C4: with the SDK initialized and the tab not in `remote` mode,
the claim logic of `notifyIncomingCall` succeeds when no live (younger
than 10 s) claim exists — writing the claim and scheduling the
announcement — and a second call for the same call id within the TTL
observes the live claim and suppresses; expiry is checked at read time
only, so any claim at least 10 s old is superseded by a new claimant. -/
theorem dedup_claim_ttl (loc : Option IframeLocation) (store : List (String × Int))
    (sid : String) (t t2 : Int) (hloc : loc ≠ some .remote)
    (hfree : getItem store (claimKey sid) = none ∨
      ∃ ts, getItem store (claimKey sid) = some ts ∧ 10000 ≤ t - ts)
    (h2 : t2 - t < 10000) :
    (notifyIncomingCallSvc true loc store sid t).2 = true ∧
    getItem (notifyIncomingCallSvc true loc store sid t).1 (claimKey sid) = some t ∧
    (notifyIncomingCallSvc true loc
      (notifyIncomingCallSvc true loc store sid t).1 sid t2).2 = false ∧
    (notifyIncomingCallSvc true loc
      (notifyIncomingCallSvc true loc store sid t).1 sid t2).1 =
      (notifyIncomingCallSvc true loc store sid t).1 ∧
    (∀ store2 ts t3, getItem store2 (claimKey sid) = some ts → 10000 ≤ t3 - ts →
      (notifyIncomingCallSvc true loc store2 sid t3).2 = true) := by
  have h1 : notifyIncomingCallSvc true loc store sid t =
      (setItem store (claimKey sid) t, true) := by
    rcases hfree with h | ⟨ts, hts, hge⟩
    · simp [notifyIncomingCallSvc, hloc, h]
    · simp [notifyIncomingCallSvc, hloc, hts, show ¬(t - ts < 10000) by omega]
  have hget : getItem (setItem store (claimKey sid) t) (claimKey sid) = some t := by
    simp [getItem, setItem, List.find?]
  refine ⟨by rw [h1], by rw [h1]; exact hget, ?_, ?_, ?_⟩
  · rw [h1]
    simp [notifyIncomingCallSvc, hloc, hget, h2]
  · rw [h1]
    simp [notifyIncomingCallSvc, hloc, hget, h2]
  · intro store2 ts t3 hs hge
    simp [notifyIncomingCallSvc, hloc, hs, show ¬(t3 - ts < 10000) by omega]

/-- Witness for C4: two immediate claims on an empty ledger, the first
succeeds and the second is suppressed. -/
theorem dedup_claim_ttl_witness :
    (notifyIncomingCallSvc true (some .window) [] "CA9" 5000).2 = true ∧
    (notifyIncomingCallSvc true (some .window)
      (notifyIncomingCallSvc true (some .window) [] "CA9" 5000).1 "CA9" 6000).2 = false := by
  have h := dedup_claim_ttl (some .window) [] "CA9" 5000 6000
    (by decide) (Or.inl rfl) (by decide)
  exact ⟨h.1, h.2.2.1⟩

/-- Under well-formedness, one `startDurationTimer` call leaves exactly
the freshly installed interval live and referenced. -/
lemma startDurationTimerW_of_wf (w : TimerWorld) (t : Nat) (hw : TimerWF w) :
    (startDurationTimerW w t).live = [w.nextId] ∧
    (startDurationTimerW w t).nextId = w.nextId + 1 ∧
    (startDurationTimerW w t).currentRef = some w.nextId := by
  obtain ⟨hl, _⟩ := hw
  cases hr : w.currentRef with
  | none =>
      rw [hr] at hl
      simp [startDurationTimerW, setIntervalW, hr, hl]
  | some i =>
      rw [hr] at hl
      simp [startDurationTimerW, setIntervalW, clearIntervalW, hr, hl]

/-- Claim C8: two consecutive `startDurationTimer` calls without an
intervening stop leave exactly one live tick source — the old interval is
always cleared first — and well-formedness is preserved. -/
theorem timer_start_single_source (w : TimerWorld) (t1 t2 : Nat) (hw : TimerWF w) :
    (startDurationTimerW (startDurationTimerW w t1) t2).live.length = 1 ∧
    (∀ i, w.currentRef = some i →
      i ∉ (startDurationTimerW (startDurationTimerW w t1) t2).live) ∧
    TimerWF (startDurationTimerW (startDurationTimerW w t1) t2) := by
  obtain ⟨hl1, hn1, hr1⟩ := startDurationTimerW_of_wf w t1 hw
  have hw1 : TimerWF (startDurationTimerW w t1) := by
    constructor
    · rw [hl1, hr1]
    · intro i hi
      rw [hl1] at hi
      simp at hi
      rw [hi, hn1]
      omega
  obtain ⟨hl2, hn2, hr2⟩ := startDurationTimerW_of_wf _ t2 hw1
  refine ⟨by rw [hl2]; rfl, ?_, ?_⟩
  · intro i hri hi
    obtain ⟨hl, hb⟩ := hw
    rw [hl2, hn1] at hi
    simp at hi
    have hmem : i ∈ w.live := by
      rw [hl, hri]
      simp
    have := hb i hmem
    omega
  · constructor
    · rw [hl2, hr2, hn1]
    · intro i hi
      rw [hl2, hn1] at hi
      simp at hi
      rw [hi, hn2, hn1]
      omega

/-- Witness for C8 on a concrete world already holding a live interval. -/
theorem timer_start_single_source_witness :
    (startDurationTimerW (startDurationTimerW w0ex 5) 9).live.length = 1 ∧
    7 ∉ (startDurationTimerW (startDurationTimerW w0ex 5) 9).live := by
  have h := timer_start_single_source w0ex 5 9 (by constructor <;> decide)
  exact ⟨h.1, h.2.1 7 rfl⟩

/-- Counterexample to C6 as stated: a tab with NO host-assigned role
(`iframeLocation = null`, dev/standalone mode) also renders the
incoming-call UI, so the UI is not rendered only when the host-assigned
role is the call-handling surface (`window`). -/
theorem incoming_ui_role_cex :
    ctxDev.iframeLocation ≠ some IframeLocation.window ∧
    (stepA ctxDev initialAppState (.wsIncomingCall d0)).1.currentScreen = .INCOMING ∧
    (stepA ctxDev initialAppState (.wsIncomingCall d0)).1 ≠ initialAppState := by
  decide

/-- Claim C6 (amended): the notification is always forwarded to the host
bridge; a tab whose role is `widget` or `remote` makes no local
screen-state change; the incoming-call UI (incoming screen, inbound
direction, connected flag false) is rendered when the role is the
call-handling surface (`window`) or when no role has been assigned
(dev/standalone). -/
theorem incoming_ui_role_gate (ctx : Ctx) (s : AppState) (d : IncomingCallData) :
    Effect.notifyIncoming d ∈ (stepA ctx s (.wsIncomingCall d)).2 ∧
    (ctx.iframeLocation = some .widget ∨ ctx.iframeLocation = some .remote →
      (stepA ctx s (.wsIncomingCall d)).1 = s) ∧
    (ctx.iframeLocation = some .window ∨ ctx.iframeLocation = none →
      (stepA ctx s (.wsIncomingCall d)).1.currentScreen = .INCOMING ∧
      (stepA ctx s (.wsIncomingCall d)).1.callDirection = some .inbound ∧
      (stepA ctx s (.wsIncomingCall d)).1.isCallConnected = false) := by
  refine ⟨?_, ?_, ?_⟩
  · by_cases hc : ctx.iframeLocation = some IframeLocation.widget ∨
        ctx.iframeLocation = some IframeLocation.remote
    · simp [stepA, hc]
    · simp [stepA, hc]
  · intro h
    simp [stepA, h]
  · intro h
    have hc : ¬(ctx.iframeLocation = some IframeLocation.widget ∨
        ctx.iframeLocation = some IframeLocation.remote) := by
      rcases h with h | h <;> simp [h]
    simp [stepA, hc]

/-- Witness for C6 (amended): the widget tab stays unchanged; the popup
tab renders the incoming screen. -/
theorem incoming_ui_role_gate_witness :
    (stepA ctxWidget initialAppState (.wsIncomingCall d0)).1 = initialAppState ∧
    (stepA exCtx initialAppState (.wsIncomingCall d0)).1.currentScreen = .INCOMING := by
  exact ⟨(incoming_ui_role_gate ctxWidget initialAppState d0).2.1 (Or.inl rfl),
         ((incoming_ui_role_gate exCtx initialAppState d0).2.2 (Or.inl rfl)).1⟩

/-- Transport events keep an outbound session outbound and never raise its
connected flag. -/
lemma transport_keeps_outbound_unconnected (ctx : Ctx) (s : AppState) (e : Event)
    (ht : isTransport e = true) (hd : s.callDirection = some .outbound)
    (hc : s.isCallConnected = false) :
    (stepA ctx s e).1.callDirection = some .outbound ∧
    (stepA ctx s e).1.isCallConnected = false := by
  cases e <;> simp_all [stepA, isTransport]

/-- Folding any transport-only event sequence over an outbound,
not-yet-connected session never sets the connected flag. -/
lemma run_transport_keeps_unconnected (ctx : Ctx) (s : AppState) (evs : List Event)
    (hall : ∀ e ∈ evs, isTransport e = true) (hd : s.callDirection = some .outbound)
    (hc : s.isCallConnected = false) :
    (runFrom ctx s evs).callDirection = some .outbound ∧
    (runFrom ctx s evs).isCallConnected = false := by
  induction evs generalizing s with
  | nil => exact ⟨hd, hc⟩
  | cons e evs ih =>
      have he := hall e (by simp)
      obtain ⟨hd1, hc1⟩ := transport_keeps_outbound_unconnected ctx s e he hd hc
      exact ih _ (fun x hx => hall x (by simp [hx])) hd1 hc1

/-- For an outbound, not-yet-connected session, the only event whose step
raises the connected flag is a remote-party-answered notification whose
call id equals the session's current call id. -/
lemma connected_setter_outbound (ctx : Ctx) (s : AppState) (e : Event)
    (hd : s.callDirection = some .outbound) (hc : s.isCallConnected = false)
    (h : (stepA ctx s e).1.isCallConnected = true) :
    e = .wsCallAnswered s.callSid := by
  cases e with
  | wsCallAnswered sid =>
      simp only [stepA] at h
      split at h
      · next hs => rw [hs]
      · simp_all
  | wsIncomingCall d =>
      simp only [stepA] at h
      split at h <;> simp_all
  | trRinging tw =>
      simp only [stepA] at h
      split at h <;> simp_all
  | trConnected dur =>
      simp only [stepA] at h
      split at h <;> simp_all
  | rejectIncoming ok =>
      simp only [stepA] at h
      split at h
      · split at h <;> simp_all
      · simp_all
  | acceptIncoming =>
      simp only [stepA] at h
      split at h <;> simp_all
  | endCallClick ok =>
      simp only [stepA] at h
      split at h <;> simp_all
  | saveNotes n =>
      simp only [stepA, resetSession] at h
      simp_all
  | skipNotes =>
      simp only [stepA, resetSession] at h
      simp_all
  | _ =>
      simp_all [stepA]

/-- Claim C1: the connected flag is governed by direction.  Outbound: a
transport `connected` event never changes the flag, never starts a timer
(no transport-only sequence ever raises the flag), and the flag is raised
exactly by a remote-party-answered notification matching the current call
id.  Inbound: a transport `connected` event alone raises the flag and
starts the duration timer, with no backend dependency. -/
theorem connected_flag_direction_rule (ctx : Ctx) (s : AppState) :
    (s.callDirection = some .outbound →
      (∀ d, (stepA ctx s (.trConnected d)).1.isCallConnected = s.isCallConnected ∧
            Effect.timerStart ∉ (stepA ctx s (.trConnected d)).2 ∧
            ∀ sid, Effect.startDuration sid ∉ (stepA ctx s (.trConnected d)).2) ∧
      (stepA ctx s (.wsCallAnswered s.callSid)).1.isCallConnected = true ∧
      (∀ e, s.isCallConnected = false → (stepA ctx s e).1.isCallConnected = true →
        e = .wsCallAnswered s.callSid) ∧
      (∀ evs, (∀ e ∈ evs, isTransport e = true) → s.isCallConnected = false →
        (runFrom ctx s evs).isCallConnected = false)) ∧
    (s.callDirection = some .inbound →
      ∀ d, (stepA ctx s (.trConnected d)).1.isCallConnected = true ∧
           Effect.timerStart ∈ (stepA ctx s (.trConnected d)).2) := by
  constructor
  · intro hd
    refine ⟨?_, ?_, ?_, ?_⟩
    · intro d
      refine ⟨by simp [stepA, hd], by simp [stepA, hd], ?_⟩
      intro sid
      simp [stepA, hd]
    · simp [stepA]
    · intro e hc h
      exact connected_setter_outbound ctx s e hd hc h
    · intro evs hall hc
      exact (run_transport_keeps_unconnected ctx s evs hall hd hc).2
  · intro hd d
    constructor
    · simp [stepA, hd]
    · simp [stepA, hd]

/-- Witness for C1: a transport `connected` event leaves the concrete
outbound session unconnected and raises the flag on the concrete inbound
one. -/
theorem connected_flag_direction_rule_witness :
    (stepA exCtx sOutEx (.trConnected (some 5))).1.isCallConnected = false ∧
    (stepA exCtx sInEx (.trConnected none)).1.isCallConnected = true := by
  constructor
  · exact (((connected_flag_direction_rule exCtx sOutEx).1 rfl).1 (some 5)).1.trans rfl
  · exact (((connected_flag_direction_rule exCtx sInEx).2 rfl) none).1

/-- Every phase rank is at most the rank of `ended`. -/
lemma rank_le_four (p : Phase) : rank p ≤ 4 := by
  cases p <;> simp [rank]

/-- Away from the ended screen, no phase outranks `connected`. -/
lemma rank_phase_le_three (s : AppState) (h : ¬s.currentScreen = .CALL_ENDED) :
    rank (phase s) ≤ 3 := by
  unfold phase
  rw [if_neg h]
  split
  · simp [rank]
  · split
    · simp [rank]
    · split
      · simp [rank]
      · split <;> simp [rank]

/-- The state reached by a transport-ringing event on a non-inbound
session is always in the ringing phase. -/
lemma phase_ringing_reset (ctx : Ctx) (s : AppState) (tw : Option String)
    (hd : ¬s.callDirection = some .inbound) :
    phase (stepA ctx s (.trRinging tw)).1 = .ringing := by
  simp [stepA, hd, phase]

/-- Counterexample to C3 as stated: from the initial state, the transport
event sequence of an answered outbound call followed by one more transport
`ringing` event moves the phase backward from `connected` to `ringing`. -/
theorem phase_monotonicity_cex :
    phase (runFrom exCtx initialAppState
      [.dialStart "+15551234567" "c1" "call-1" 1000,
       .trRinging (some "CA1"), .wsCallAnswered (some "CA1")]) = .connected ∧
    isTransport (.trRinging (some "CA1")) = true ∧
    phase (runFrom exCtx initialAppState
      [.dialStart "+15551234567" "c1" "call-1" 1000,
       .trRinging (some "CA1"), .wsCallAnswered (some "CA1"),
       .trRinging (some "CA1")]) = .ringing ∧
    rank (phase (runFrom exCtx initialAppState
      [.dialStart "+15551234567" "c1" "call-1" 1000,
       .trRinging (some "CA1"), .wsCallAnswered (some "CA1"),
       .trRinging (some "CA1")])) <
      rank (phase (runFrom exCtx initialAppState
        [.dialStart "+15551234567" "c1" "call-1" 1000,
         .trRinging (some "CA1"), .wsCallAnswered (some "CA1")])) := by
  decide

/-- Claim C3 (amended): every transport event moves the connection phase
forward along idle → dialing/announced → ringing → connected → ended,
except that a transport `ringing` event delivered to a session whose
direction is not inbound unconditionally resets the phase to `ringing`
(even from `connected` or `ended`); the user-initiated reject either takes
the session to the ended phase or leaves the state unchanged. -/
theorem phase_forward_except_ringing_reset (ctx : Ctx) (s : AppState) :
    (∀ e, isTransport e = true →
      rank (phase s) ≤ rank (phase (stepA ctx s e).1) ∨
      ((∃ tw, e = .trRinging tw) ∧ ¬s.callDirection = some .inbound ∧
        phase (stepA ctx s e).1 = .ringing)) ∧
    (∀ apiOk, phase (stepA ctx s (.rejectIncoming apiOk)).1 = .ended ∨
      (stepA ctx s (.rejectIncoming apiOk)).1 = s) := by
  constructor
  · intro e ht
    cases e with
    | trConnecting =>
        left
        simp [stepA]
    | trRinging tw =>
        by_cases hd : s.callDirection = some .inbound
        · left
          have h1 : phase (stepA ctx s (.trRinging tw)).1 = phase s := by
            simp [stepA, hd, phase]
          rw [h1]
        · right
          exact ⟨⟨tw, rfl⟩, hd, phase_ringing_reset ctx s tw hd⟩
    | trConnected dur =>
        left
        by_cases hd : s.callDirection = some .inbound
        · by_cases hscr : s.currentScreen = .CALL_ENDED
          · have h1 : phase (stepA ctx s (.trConnected dur)).1 = .ended := by
              simp [stepA, hd, phase, hscr]
            have h2 : phase s = .ended := by
              simp [phase, hscr]
            rw [h1, h2]
          · have h1 : phase (stepA ctx s (.trConnected dur)).1 = .connected := by
              simp [stepA, hd, phase, hscr]
            rw [h1]
            exact rank_phase_le_three s hscr
        · have h1 : phase (stepA ctx s (.trConnected dur)).1 = phase s := by
            simp [stepA, hd, phase]
          rw [h1]
    | trEnded =>
        left
        have h1 : phase (stepA ctx s .trEnded).1 = .ended := by
          simp [stepA, phase]
        rw [h1]
        exact rank_le_four _
    | trError msg =>
        left
        have h1 : phase (stepA ctx s (.trError msg)).1 = .ended := by
          simp [stepA, phase]
        rw [h1]
        exact rank_le_four _
    | _ => simp [isTransport] at ht
  · intro apiOk
    by_cases hg : (jsTruthyStr s.callSid && jsTruthyNat s.engagementId) = true
    · cases apiOk with
      | true =>
          left
          simp [stepA, hg, phase]
      | false =>
          right
          simp [stepA, hg]
    · right
      simp [stepA, hg]

/-- Witness for C3 (amended): instantiated on a transport `ended` event at
the concrete outbound session, the phase moves forward to `ended`. -/
theorem phase_forward_except_ringing_reset_witness :
    rank (phase sOutEx) ≤ rank (phase (stepA exCtx sOutEx .trEnded).1) ∨
    ((∃ tw, Event.trEnded = .trRinging tw) ∧ ¬sOutEx.callDirection = some .inbound ∧
      phase (stepA exCtx sOutEx .trEnded).1 = .ringing) :=
  (phase_forward_except_ringing_reset exCtx sOutEx).1 .trEnded rfl

/-- End statuses the handlers may hold: anything but MISSED. -/
def okStatus : Option CallEndStatus → Bool
  | some .MISSED => false
  | _ => true

/-- Every orchestrator step preserves the end-status vocabulary. -/
lemma step_preserves_okStatus (ctx : Ctx) (s : AppState) (e : Event)
    (h : okStatus s.callEndStatus = true) :
    okStatus (stepA ctx s e).1.callEndStatus = true := by
  cases e <;> simp only [stepA, resetSession] <;>
    (try split) <;> (try split) <;> simp_all [okStatus]

/-- Claim C10: in every state reachable from the initial state under any
event sequence, the session's end status is empty or one of COMPLETED,
FAILED, CANCELED; the MISSED status of the data model is never produced. -/
theorem end_status_vocabulary (ctx : Ctx) (evs : List Event) :
    ((runFrom ctx initialAppState evs).callEndStatus = none ∨
     (runFrom ctx initialAppState evs).callEndStatus = some .COMPLETED ∨
     (runFrom ctx initialAppState evs).callEndStatus = some .FAILED ∨
     (runFrom ctx initialAppState evs).callEndStatus = some .CANCELED) ∧
    (runFrom ctx initialAppState evs).callEndStatus ≠ some .MISSED := by
  have hrun : ∀ s, okStatus s.callEndStatus = true →
      okStatus (runFrom ctx s evs).callEndStatus = true := by
    induction evs with
    | nil => intro s h; exact h
    | cons e evs ih => intro s h; exact ih _ (step_preserves_okStatus ctx s e h)
  have hok := hrun initialAppState (by decide)
  cases hval : (runFrom ctx initialAppState evs).callEndStatus with
  | none => exact ⟨Or.inl rfl, by simp⟩
  | some st =>
      rw [hval] at hok
      cases st with
      | COMPLETED => exact ⟨Or.inr (Or.inl rfl), by simp⟩
      | FAILED => exact ⟨Or.inr (Or.inr (Or.inl rfl)), by simp⟩
      | CANCELED => exact ⟨Or.inr (Or.inr (Or.inr rfl)), by simp⟩
      | MISSED => exact absurd hok (by decide)

end Wacalling
